import Mathlib

/-!
Verification of `test-mcp-python-client/mcp_sse_client.py`, a scripted MCP
integration-test client: SSE handshake (`connect_sse`), JSON-RPC exchange
(`send_mcp_request`), and the scripted tool-selection sequence (`main`).

The Python code is shallowly embedded: JSON values are an inductive type,
Python truthiness and `str.split` are modelled explicitly, the HTTP layer is
modelled at the library boundary by the outcome the `requests` calls deliver
(`requests.get`/`requests.post` either raise or return a status plus body;
`raise_for_status` raises exactly for statuses in 400..599), and uncaught
Python exceptions are modelled as explicit error values.
-/

namespace MCPClient

/-- JSON values as produced by Python's `json.loads`: `None`, booleans,
numbers (integral only — no float appears anywhere in the script), strings,
lists and dicts (association lists, keys unique in practice). -/
inductive PyJson where
  | null
  | bool (b : Bool)
  | num (n : Int)
  | str (s : String)
  | arr (xs : List PyJson)
  | obj (fields : List (String × PyJson))

/-- Python truthiness (`if x:`) on JSON values: `None`/`False`/`0`/`""` and
empty containers are falsy, everything else truthy. -/
def truthy : PyJson → Bool
  | .null => false
  | .bool b => b
  | .num n => n != 0
  | .str s => s != ""
  | .arr xs => !xs.isEmpty
  | .obj fs => !fs.isEmpty

/-- Dict lookup (`d.get(key)` without default): first matching key. -/
def objGet : List (String × PyJson) → String → Option PyJson
  | [], _ => none
  | (k, v) :: rest, key => if k = key then some v else objGet rest key

/-- Index of the first occurrence of `sep` in a character list
(the position Python's `str.split`/`in` operate on). -/
def findOcc (sep : List Char) : List Char → Option Nat
  | [] => if sep.isEmpty then some 0 else none
  | c :: rest =>
    if sep.isPrefixOf (c :: rest) then some 0
    else (findOcc sep rest).map (· + 1)

/-- Fuelled worker for Python's `str.split(sep)`: repeatedly cut at the first
occurrence of `sep`.  Fuel `|s| + 1` always suffices for nonempty `sep`. -/
def pySplitAux (sep : List Char) : Nat → List Char → List (List Char)
  | 0, s => [s]
  | fuel + 1, s =>
    match findOcc sep s with
    | none => [s]
    | some i => s.take i :: pySplitAux sep fuel (s.drop (i + sep.length))

/-- Python's `s.split(sep)` for a nonempty separator. -/
def pySplit (s sep : String) : List String :=
  (pySplitAux sep.data (s.data.length + 1) s.data).map (fun l => ⟨l⟩)

/-- Python's substring test `sub in s` on strings. -/
def containsSub (s sub : String) : Bool :=
  (findOcc sub.data s.data).isSome

/-- Index of the first occurrence of `sub` in `s`, at the `String` level. -/
def firstOcc (s sub : String) : Option Nat :=
  findOcc sub.data s.data

/-- The client object (`MCPSSEClient.__init__`): base URL, endpoint id, the
derived SSE URL, and the two fields the handshake populates, `None` until
then. -/
structure MCPSSEClient where
  base_url : String
  endpoint_id : String
  sse_url : String
  session_id : Option String
  message_url : Option String
deriving DecidableEq

/-- `MCPSSEClient(base_url, endpoint_id)`. -/
def MCPSSEClient.init (base_url endpoint_id : String) : MCPSSEClient :=
  { base_url := base_url
    endpoint_id := endpoint_id
    sse_url := base_url ++ "/mcp/" ++ endpoint_id ++ "/sse"
    session_id := none
    message_url := none }

/-- Outcome of `json.loads` on an event's data, modelled at the parser
boundary: either the parsed value or a raised `JSONDecodeError`. -/
inductive LoadsOutcome where
  | ok (j : PyJson)
  | err

/-- A server-sent event as `sseclient` yields it: its event type and the
(`json.loads`-classified) data payload. -/
structure SSEEvent where
  event : String
  data : LoadsOutcome

/-- Outcome of the streaming `requests.get` at the library boundary: either a
raised exception (connection failure etc.) or a response with its HTTP status
code and the list of SSE events its body carries. -/
inductive GetOutcome where
  | connError
  | response (status : Nat) (events : List SSEEvent)

/-- `response.raise_for_status()` raises exactly for 4xx/5xx statuses
(`400 <= status < 600`); every other status passes through. -/
def raisesForStatus (status : Nat) : Bool :=
  decide (400 ≤ status ∧ status < 600)

/-- `MCPSSEClient.connect_sse`, as a function of the GET outcome.  Reads at
most the first event (the loop body ends in `break`).  On the one success
path it returns `True` and sets `session_id` to `uri.split('session_id=')[1]`
and `message_url` to `urljoin(base_url, uri)` (`urljoin` — stdlib relative-URL
resolution — is passed in as a parameter).  Every other path, including any
exception caught by the `except` clause (JSON decode failure, `.get` on a
non-dict, `in`/`split` on a non-string), prints and returns `False` leaving
the client untouched. -/
def connect_sse (urljoin : String → String → String) (c : MCPSSEClient)
    (g : GetOutcome) : Bool × MCPSSEClient :=
  match g with
  | .connError => (false, c)
  | .response status events =>
    if raisesForStatus status then (false, c)
    else
      match events with
      | [] => (false, c)
      | e :: _ =>
        if e.event = "endpoint" then
          match e.data with
          | .err => (false, c)
          | .ok j =>
            match j with
            | .obj fs =>
              match objGet fs "uri" with
              | none => (false, c)
              | some v =>
                if truthy v then
                  match v with
                  | .str uri =>
                    if containsSub uri "session_id=" then
                      (true,
                        { c with
                          session_id := some ((pySplit uri "session_id=").getD 1 "")
                          message_url := some (urljoin c.base_url uri) })
                    else (false, c)
                  | _ => (false, c)
                else (false, c)
            | _ => (false, c)
        else (false, c)

/-- One HTTP POST as observed on the wire: target URL and JSON body. -/
structure PostRequest where
  url : String
  body : PyJson

/-- Body of a POST response at the library boundary: empty
(`response.content` falsy), well-formed JSON, or raw text that fails
`response.json()`. -/
inductive HttpBody where
  | empty
  | jsonBody (j : PyJson)
  | rawBody (t : String)

/-- Outcome of `requests.post` at the library boundary. -/
inductive PostOutcome where
  | netError
  | response (status : Nat) (body : HttpBody)

/-- Python's `params or {}`. -/
def pyOr (params : Option PyJson) : PyJson :=
  match params with
  | none => .obj []
  | some p => if truthy p then p else .obj []

/-- The JSON-RPC envelope `send_mcp_request` builds (dict-literal field
order preserved). -/
def mcpRequestBody (method : String) (params : Option PyJson)
    (request_id : Int) : PyJson :=
  .obj [("jsonrpc", .str "2.0"), ("id", .num request_id),
        ("method", .str method), ("params", pyOr params)]

/-- `MCPSSEClient.send_mcp_request`, as a function of the POST outcome.
Returns the Python return value, the client (the method assigns no
attribute), and the list of POSTs performed.  `if not self.message_url:`
short-circuits on `None` and on the empty string (both falsy) with no
network I/O.  `raise_for_status` failures and network errors land in the
`RequestException` handler, a body that fails `response.json()` lands in a
handler that also prints the raw text; every handler returns `None`, so no
failure propagates as an exception. -/
def send_mcp_request (c : MCPSSEClient) (method : String)
    (params : Option PyJson) (request_id : Int) (o : PostOutcome) :
    Option PyJson × MCPSSEClient × List PostRequest :=
  match c.message_url with
  | none => (none, c, [])
  | some url =>
    if url = "" then (none, c, [])
    else
      let req : PostRequest := ⟨url, mcpRequestBody method params request_id⟩
      match o with
      | .netError => (none, c, [req])
      | .response status hb =>
        if raisesForStatus status then (none, c, [req])
        else
          match hb with
          | .empty =>
            (some (.obj [("status", .str "success"),
                         ("status_code", .num (status : Int))]), c, [req])
          | .jsonBody j => (some j, c, [req])
          | .rawBody _t => (none, c, [req])

/-- Hard-coded base URL of `main`. -/
def BASE_URL : String := "http://localhost:3000"

/-- Hard-coded endpoint id of `main`. -/
def ENDPOINT_ID : String := "2764a1cc-4513-4726-ae88-05d33d164493"

/-- The hard-coded test agent UUID. -/
def testAgentId : String := "98e2b1cf-3a7d-4f6c-9b0a-5d8c7e6f5432"

/-- The hard-coded body object `test_data` of `main`. -/
def testData : PyJson :=
  .obj [("agentId", .str testAgentId), ("botId", .str "test-bot-123"),
        ("appId", .str "cli_a5f8e3d9b7c401ab")]

/-- The fixed `initialize` parameter payload. -/
def initializeParams : PyJson :=
  .obj [("protocolVersion", .str "2024-11-05"), ("capabilities", .obj []),
        ("clientInfo", .obj [("name", .str "mcp-sse-test-client"),
                             ("version", .str "1.0.0")])]

/-- The source method `MCPSSEClient.test_initialize` (suffixed with `_step`
because `initialize` is a Lean command name). -/
def test_initialize_step (c : MCPSSEClient) (o : PostOutcome) :
    Option PyJson × MCPSSEClient × List PostRequest :=
  send_mcp_request c "initialize" (some initializeParams) 1 o

/-- `MCPSSEClient.test_list_tools`. -/
def test_list_tools (c : MCPSSEClient) (o : PostOutcome) :
    Option PyJson × MCPSSEClient × List PostRequest :=
  send_mcp_request c "tools/list" none 1 o

/-- `MCPSSEClient.test_call_tool` (the `name` value is whatever `.get('name')`
returned; `arguments or {}` as in the source). -/
def test_call_tool (c : MCPSSEClient) (toolName : PyJson)
    (arguments : Option PyJson) (o : PostOutcome) :
    Option PyJson × MCPSSEClient × List PostRequest :=
  send_mcp_request c "tools/call"
    (some (.obj [("name", toolName), ("arguments", pyOr arguments)])) 1 o

/-- `MCPSSEClient.test_call_tool_with_agent_id`. -/
def test_call_tool_with_agent_id (c : MCPSSEClient) (toolName : PyJson)
    (agent_id : String) (o : PostOutcome) :
    Option PyJson × MCPSSEClient × List PostRequest :=
  send_mcp_request c "tools/call"
    (some (.obj [("name", toolName),
                 ("arguments", .obj [("agentId", .str agent_id)])])) 1 o

/-- Python's `key in j` for the values `json.loads` can produce: key test on a
dict, element equality on a list, substring test on a string; `in` on a
number/bool/`None` raises `TypeError`. -/
def keyIn (j : PyJson) (key : String) : Except Unit Bool :=
  match j with
  | .obj fs => .ok ((objGet fs key).isSome)
  | .arr xs =>
    .ok (xs.any fun x => match x with | .str s => s == key | _ => false)
  | .str s => .ok (containsSub s key)
  | _ => .error ()

/-- Python's `j[key]` with a string key: dict lookup (`KeyError` if absent);
on a list or string a `TypeError` (string indices must be integers). -/
def indexJ (j : PyJson) (key : String) : Except Unit PyJson :=
  match j with
  | .obj fs =>
    match objGet fs key with
    | some v => .ok v
    | none => .error ()
  | _ => .error ()

/-- `for tool in tools` over a JSON value: a list yields its elements.  Any
other truthy value either is not iterable (`TypeError`) or yields strings on
which the loop body's `.get` immediately raises `AttributeError`; both are
folded into the error case (the crash then happens before any request). -/
def iterTools (j : PyJson) : Except Unit (List PyJson) :=
  match j with
  | .arr xs => .ok xs
  | _ => .error ()

/-- `tool.get('name', '')`: `AttributeError` when the descriptor is not a
dict. -/
def toolNameDefault (t : PyJson) : Except Unit PyJson :=
  match t with
  | .obj fs => .ok ((objGet fs "name").getD (.str ""))
  | _ => .error ()

/-- `tool.get('name')` (no default, so `None` when absent). -/
def toolGetName (t : PyJson) : Except Unit PyJson :=
  match t with
  | .obj fs => .ok ((objGet fs "name").getD .null)
  | _ => .error ()

/-- One of `main`'s two scan loops: first tool whose `.get('name', '')`
contains `sub` under Python's `in`, scanning in list order with `break`. -/
def scanFirst (tools : List PyJson) (sub : String) :
    Except Unit (Option PyJson) :=
  match tools with
  | [] => .ok none
  | t :: rest =>
    match toolNameDefault t with
    | .error e => .error e
    | .ok nv =>
      match keyIn nv sub with
      | .error e => .error e
      | .ok true => .ok (some t)
      | .ok false => scanFirst rest sub

/-- Result of the tool-selection phase: the `tools/call` POSTs it issued, or
an uncaught Python exception (`main` has no handler) after issuing them. -/
inductive PhaseOut where
  | ok (reqs : List PostRequest)
  | crash (reqs : List PostRequest)

/-- `main`, lines 170–216, from `if tools:` onward: if the extracted tools
value is truthy, iterate it running the find-scan (calling the match with
`{agentId: testAgentId}`), then the save-scan (calling the match with
`{body: test_data}`), falling back — only when no `save` match exists — to
the first tool, called with no arguments if its name is truthy.  `env k` is
the boundary outcome of the `k`-th `send_mcp_request` invocation of the
run. -/
def toolSelect (c : MCPSSEClient) (toolsVal : PyJson)
    (env : Nat → PostOutcome) (k : Nat) : PhaseOut :=
  if truthy toolsVal then
    match iterTools toolsVal with
    | .error _ => .crash []
    | .ok tools =>
    match scanFirst tools "findByAgentId" with
    | .error _ => .crash []
    | .ok findTool =>
    let step1 : List PostRequest × Nat × Bool :=
      match findTool with
      | none => ([], k, false)
      | some t =>
        match toolGetName t with
        | .error _ => ([], k, true)
        | .ok nameJ =>
          let r := test_call_tool_with_agent_id c nameJ testAgentId (env k)
          (r.2.2, k + 1, false)
    match step1 with
    | (reqs1, _, true) => .crash reqs1
    | (reqs1, k1, false) =>
      match scanFirst tools "save" with
      | .error _ => .crash reqs1
      | .ok (some t) =>
        match toolGetName t with
        | .error _ => .crash reqs1
        | .ok nameJ =>
          let r := test_call_tool c nameJ (some (.obj [("body", testData)]))
            (env k1)
          .ok (reqs1 ++ r.2.2)
      | .ok none =>
        match tools with
        | [] => .ok reqs1
        | t0 :: _ =>
          match toolGetName t0 with
          | .error _ => .crash reqs1
          | .ok nameJ =>
            if truthy nameJ then
              let r := test_call_tool c nameJ none (env k1)
              .ok (reqs1 ++ r.2.2)
            else .ok reqs1
  else .ok []

/-- `main`, lines 167–216: given the truthy `tools/list` result, probe
`result` and `tools`, then run the selection (`toolSelect`) on the extracted
tools value. -/
def toolPhase (c : MCPSSEClient) (j : PyJson) (env : Nat → PostOutcome)
    (k : Nat) : PhaseOut :=
  match keyIn j "result" with
  | .error _ => .crash []
  | .ok false => .ok []
  | .ok true =>
  match indexJ j "result" with
  | .error _ => .crash []
  | .ok resVal =>
  match keyIn resVal "tools" with
  | .error _ => .crash []
  | .ok false => .ok []
  | .ok true =>
  match indexJ resVal "tools" with
  | .error _ => .crash []
  | .ok toolsVal => toolSelect c toolsVal env k

/-- Truthiness of a `send_mcp_request` return value, as `main`'s
`if init_result:` / `if tools_result:` / `if call_result:` test it:
`None` and falsy JSON values (such as `{}`) count as failure. -/
def resultTruthy : Option PyJson → Bool
  | none => false
  | some j => truthy j

/-- Observable outcome of one `main` run: all POSTs in order, whether the
handshake succeeded (on failure `main` aborts), the reported pass/fail of the
initialize and tools/list steps, and whether the final completion banner was
reached (false on abort or an uncaught exception). -/
structure MainResult where
  requests : List PostRequest
  handshakeOk : Bool
  initReported : Bool
  toolsReported : Bool
  completed : Bool

/-- `main`: construct the client, handshake (aborting on failure), run
`initialize` and `tools/list` (reporting each by truthiness), run the
tool-selection phase when the `tools/list` result is truthy, and print the
completion banner unless an exception escapes the phase. -/
def mainRun (urljoin : String → String → String) (g : GetOutcome)
    (env : Nat → PostOutcome) : MainResult :=
  let c0 := MCPSSEClient.init BASE_URL ENDPOINT_ID
  match connect_sse urljoin c0 g with
  | (false, _) => ⟨[], false, false, false, false⟩
  | (true, c1) =>
    let ri := test_initialize_step c1 (env 0)
    let rt := test_list_tools ri.2.1 (env 1)
    let initOk := resultTruthy ri.1
    if resultTruthy rt.1 then
      match rt.1 with
      | some j =>
        match toolPhase rt.2.1 j env 2 with
        | .ok pr => ⟨ri.2.2 ++ rt.2.2 ++ pr, true, initOk, true, true⟩
        | .crash pr => ⟨ri.2.2 ++ rt.2.2 ++ pr, true, initOk, true, false⟩
      | none => ⟨ri.2.2 ++ rt.2.2, true, initOk, true, true⟩
    else ⟨ri.2.2 ++ rt.2.2, true, initOk, false, true⟩

/-- Does this tool descriptor carry a string name containing `sub`?
(Spec-side view of what the scans match for well-formed descriptors.) -/
def toolMatchName (t : PyJson) (sub : String) : Bool :=
  match t with
  | .obj fs =>
    match objGet fs "name" with
    | some (.str s) => containsSub s sub
    | _ => false
  | _ => false

/-- The descriptor's name, when it is a dict with a string name. -/
def nameOf (t : PyJson) : Option String :=
  match t with
  | .obj fs =>
    match objGet fs "name" with
    | some (.str s) => some s
    | _ => none
  | _ => none

/-- Well-formed tool descriptor: a dict whose `name`, if present, is a
string (the only shapes the claims exercise). -/
def wfTool (t : PyJson) : Bool :=
  match t with
  | .obj fs =>
    match objGet fs "name" with
    | none => true
    | some (.str _) => true
    | some _ => false
  | _ => false

/-- The `tools/call` POST for a given tool name and arguments object. -/
def callEnvelope (url toolName : String) (args : PyJson) : PostRequest :=
  ⟨url, .obj [("jsonrpc", .str "2.0"), ("id", .num 1),
              ("method", .str "tools/call"),
              ("params", .obj [("name", .str toolName),
                               ("arguments", args)])]⟩

/-- Declarative description of the `tools/call` requests the phase issues on
a well-formed tools list: the first `findByAgentId` match (if any) is called
with the agent id, and — independently — the first `save` match (if any) is
called with the body object; only when no `save` match exists is the first
tool called with no arguments (and only if its name is a nonempty string). -/
def expectedToolCalls (url : String) (tools : List PyJson) :
    List PostRequest :=
  (match tools.find? (fun t => toolMatchName t "findByAgentId") with
   | some t => [callEnvelope url ((nameOf t).getD "")
                  (.obj [("agentId", .str testAgentId)])]
   | none => []) ++
  (match tools.find? (fun t => toolMatchName t "save") with
   | some t => [callEnvelope url ((nameOf t).getD "") (.obj [("body", testData)])]
   | none =>
     match tools with
     | [] => []
     | t0 :: _ =>
       match nameOf t0 with
       | some s => if s = "" then [] else [callEnvelope url s (.obj [])]
       | none => [])

/-! ## Helper lemmas -/

/-- `send_mcp_request` never assigns a client attribute: the returned client
is the argument, on every path. -/
theorem send_state (c : MCPSSEClient) (m : String) (p : Option PyJson)
    (rid : Int) (o : PostOutcome) : (send_mcp_request c m p rid o).2.1 = c := by
  unfold send_mcp_request
  repeat' split
  all_goals rfl

/-- With a nonempty message URL, every `send_mcp_request` performs exactly
one POST, of the JSON-RPC envelope, whatever the outcome. -/
theorem send_reqs {c : MCPSSEClient} {url : String} (m : String)
    (p : Option PyJson) (rid : Int) (o : PostOutcome)
    (h : c.message_url = some url) (h2 : url ≠ "") :
    (send_mcp_request c m p rid o).2.2 =
      [⟨url, mcpRequestBody m p rid⟩] := by
  unfold send_mcp_request
  rw [h]
  dsimp only
  rw [if_neg h2]
  repeat' split
  all_goals rfl

/-- `connect_sse` either fails leaving the client untouched or succeeds
setting exactly the two optional fields. -/
theorem connect_sse_shape (uj : String → String → String) (c : MCPSSEClient)
    (g : GetOutcome) :
    connect_sse uj c g = (false, c) ∨
    ∃ s m, connect_sse uj c g =
      (true, { c with session_id := some s, message_url := some m }) := by
  unfold connect_sse
  repeat' split
  all_goals first
  | exact Or.inl rfl
  | exact Or.inr ⟨_, _, rfl⟩

/-! ## Claim C3 -/

/-- C3: for every method, params and id, when the message URL is unset
(the handshake has not succeeded) `send_mcp_request` returns `None` having
performed zero HTTP requests — no JSON-RPC call is attempted before the
message URL is known. -/
theorem send_before_handshake_no_request (c : MCPSSEClient) (m : String)
    (p : Option PyJson) (rid : Int) (o : PostOutcome)
    (h : c.message_url = none) :
    send_mcp_request c m p rid o = (none, c, []) := by
  unfold send_mcp_request
  rw [h]

/-- Witness for C3 at a freshly constructed client. -/
theorem send_before_handshake_no_request_witness :
    send_mcp_request (MCPSSEClient.init "http://localhost:3000" "e")
        "initialize" none 1 .netError =
      (none, MCPSSEClient.init "http://localhost:3000" "e", []) :=
  send_before_handshake_no_request _ _ _ _ _ rfl

/-! ## Claim C4 -/

/-- C4: with the message URL set, the one POST `send_mcp_request` performs
carries exactly the body
`{jsonrpc: "2.0", id: I, method: M, params: P}` — `params` being `{}` when
`P` is absent — whatever the outcome; and every 2xx response with an empty
body is returned as exactly `{status: "success", status_code: <code>}`. -/
theorem send_envelope_and_empty_body (c : MCPSSEClient) (url m : String)
    (p : PyJson) (rid : Int) (o : PostOutcome) (status : Nat)
    (h : c.message_url = some url) (h2 : url ≠ "") :
    ((truthy p = true ∨ p = .obj []) →
      (send_mcp_request c m (some p) rid o).2.2 =
        [⟨url, .obj [("jsonrpc", .str "2.0"), ("id", .num rid),
                     ("method", .str m), ("params", p)]⟩]) ∧
    ((send_mcp_request c m none rid o).2.2 =
      [⟨url, .obj [("jsonrpc", .str "2.0"), ("id", .num rid),
                   ("method", .str m), ("params", .obj [])]⟩]) ∧
    (200 ≤ status → status < 300 →
      (send_mcp_request c m (some p) rid (.response status .empty)).1 =
        some (.obj [("status", .str "success"),
                    ("status_code", .num (status : Int))])) := by
  refine ⟨?_, ?_, ?_⟩
  · intro hp
    rw [send_reqs m (some p) rid o h h2]
    have hpv : pyOr (some p) = p := by
      rcases hp with hp | hp
      · simp [pyOr, hp]
      · simp [pyOr, hp, truthy]
    simp [mcpRequestBody, hpv]
  · rw [send_reqs m none rid o h h2]
    simp [mcpRequestBody, pyOr]
  · intro hs1 hs2
    unfold send_mcp_request
    rw [h]
    dsimp only
    rw [if_neg h2]
    have hrs : raisesForStatus status = false := by
      simp only [raisesForStatus, decide_eq_false_iff_not]
      omega
    rw [hrs]
    rfl

/-- Witness for C4 at concrete inputs. -/
theorem send_envelope_and_empty_body_witness :
    (send_mcp_request ⟨"b", "e", "s", some "sid", some "http://u/m"⟩
        "tools/list" (some (.obj [("k", .num 7)])) 2 .netError).2.2 =
      [⟨"http://u/m", .obj [("jsonrpc", .str "2.0"), ("id", .num 2),
                           ("method", .str "tools/list"),
                           ("params", .obj [("k", .num 7)])]⟩] ∧
    (send_mcp_request ⟨"b", "e", "s", some "sid", some "http://u/m"⟩
        "tools/list" (some (.obj [("k", .num 7)])) 2
        (.response 204 .empty)).1 =
      some (.obj [("status", .str "success"), ("status_code", .num 204)]) := by
  have h := send_envelope_and_empty_body
    ⟨"b", "e", "s", some "sid", some "http://u/m"⟩ "http://u/m" "tools/list"
    (.obj [("k", .num 7)]) 2 .netError 204 rfl (by decide)
  exact ⟨h.1 (Or.inl rfl), h.2.2 (by decide) (by decide)⟩

/-! ## Claim C5 -/

/-- Counterexample to C5 as stated: an HTTP 301 response — not a 2xx
status — with an empty body does **not** make `send_mcp_request` return
`None`; `raise_for_status` only raises for 4xx/5xx, so the function returns
the synthetic success marker. -/
theorem send_non2xx_not_none_counterexample :
    (send_mcp_request ⟨"b", "e", "s", some "sid", some "http://u/m"⟩
        "initialize" none 1 (.response 301 .empty)).1 =
      some (.obj [("status", .str "success"), ("status_code", .num 301)]) ∧
    ¬ (200 ≤ 301 ∧ 301 < 300) ∧
    (send_mcp_request ⟨"b", "e", "s", some "sid", some "http://u/m"⟩
        "initialize" none 1 (.response 301 .empty)).1 ≠ none := by
  refine ⟨rfl, by omega, ?_⟩
  intro hc
  exact Option.noConfusion
    ((rfl :
      (send_mcp_request ⟨"b", "e", "s", some "sid", some "http://u/m"⟩
          "initialize" none 1 (.response 301 .empty)).1 =
        some (.obj [("status", .str "success"),
                    ("status_code", .num 301)])).symm.trans hc)

/-- C5 (amended): the statuses for which `raise_for_status` raises (4xx/5xx),
a network-level error, and a JSON parse failure of the body each make
`send_mcp_request` log and return `None` (parse failure at any non-raising
status); no failure propagates to the caller as an exception. -/
theorem send_failure_paths (c : MCPSSEClient) (url m : String)
    (p : Option PyJson) (rid : Int)
    (h : c.message_url = some url) (h2 : url ≠ "") :
    (∀ status hb, 400 ≤ status → status < 600 →
      (send_mcp_request c m p rid (.response status hb)).1 = none) ∧
    ((send_mcp_request c m p rid .netError).1 = none) ∧
    (∀ status t,
      (send_mcp_request c m p rid (.response status (.rawBody t))).1 =
        none) := by
  refine ⟨?_, ?_, ?_⟩
  · intro status hb hs1 hs2
    unfold send_mcp_request
    rw [h]
    dsimp only
    rw [if_neg h2]
    have hrs : raisesForStatus status = true := by
      simp only [raisesForStatus, decide_eq_true_eq]
      omega
    rw [hrs]
    rfl
  · unfold send_mcp_request
    rw [h]
    dsimp only
    rw [if_neg h2]
  · intro status t
    unfold send_mcp_request
    rw [h]
    dsimp only
    rw [if_neg h2]
    split
    · rfl
    · rfl

/-- Witness for C5 (amended) at concrete inputs. -/
theorem send_failure_paths_witness :
    (send_mcp_request ⟨"b", "e", "s", some "sid", some "http://u/m"⟩
        "initialize" none 1 (.response 500 .empty)).1 = none ∧
    (send_mcp_request ⟨"b", "e", "s", some "sid", some "http://u/m"⟩
        "initialize" none 1 (.response 200 (.rawBody "not json"))).1 =
      none := by
  have h := send_failure_paths ⟨"b", "e", "s", some "sid", some "http://u/m"⟩
    "http://u/m" "initialize" none 1 rfl (by decide)
  exact ⟨h.1 500 .empty (by decide) (by decide), h.2.2 200 "not json"⟩

/-! ## Claim C8 -/

/-- C8: the session identifier and message URL are written at most once, by
a successful handshake: `send_mcp_request` and each `test_*` wrapper return
the client unchanged; a failing handshake leaves the client untouched, and a
successful one sets exactly the two optional fields, preserving the base
URL, endpoint id and SSE URL. -/
theorem client_state_write_once (uj : String → String → String)
    (c : MCPSSEClient) (g : GetOutcome) (m : String) (p : Option PyJson)
    (rid : Int) (o : PostOutcome) (nm : PyJson) (args : Option PyJson)
    (ag : String) :
    (send_mcp_request c m p rid o).2.1 = c ∧
    (test_initialize_step c o).2.1 = c ∧
    (test_list_tools c o).2.1 = c ∧
    (test_call_tool c nm args o).2.1 = c ∧
    (test_call_tool_with_agent_id c nm ag o).2.1 = c ∧
    ((connect_sse uj c g).1 = false → (connect_sse uj c g).2 = c) ∧
    ((connect_sse uj c g).1 = true →
      ∃ s murl, (connect_sse uj c g).2 =
        { c with session_id := some s, message_url := some murl }) := by
  refine ⟨send_state .., send_state .., send_state .., send_state ..,
    send_state .., ?_, ?_⟩
  · intro hf
    rcases connect_sse_shape uj c g with hsh | ⟨s, murl, hsh⟩
    · rw [hsh]
    · rw [hsh] at hf
      exact absurd hf (by simp)
  · intro ht
    rcases connect_sse_shape uj c g with hsh | ⟨s, murl, hsh⟩
    · rw [hsh] at ht
      exact absurd ht (by simp)
    · exact ⟨s, murl, by rw [hsh]⟩

/-- Witness for C8 at concrete inputs (a failing handshake). -/
theorem client_state_write_once_witness :
    (connect_sse (fun _ r => r) (MCPSSEClient.init "b" "e") .connError).2 =
      MCPSSEClient.init "b" "e" :=
  (client_state_write_once (fun _ r => r) (MCPSSEClient.init "b" "e")
    .connError "m" none 1 .netError .null none "a").2.2.2.2.2.1 rfl

/-! ## Claim C7 -/

/-- C7: when the `tools/list` result lacks the `result` key, or its `result`
lacks the `tools` key, or `result.tools` is the empty list, the scripted
sequence issues no `tools/call` and raises no error (`.ok []`), so `main`
proceeds directly to the completion banner. -/
theorem toolphase_no_tools (c : MCPSSEClient) (env : Nat → PostOutcome)
    (k : Nat) (fs : List (String × PyJson)) :
    (objGet fs "result" = none →
      toolPhase c (.obj fs) env k = .ok []) ∧
    (∀ gs, objGet fs "result" = some (.obj gs) → objGet gs "tools" = none →
      toolPhase c (.obj fs) env k = .ok []) ∧
    (∀ gs, objGet fs "result" = some (.obj gs) →
      objGet gs "tools" = some (.arr []) →
      toolPhase c (.obj fs) env k = .ok []) := by
  refine ⟨?_, ?_, ?_⟩
  · intro h
    unfold toolPhase
    simp [keyIn, h]
  · intro gs h hg
    unfold toolPhase
    simp [keyIn, indexJ, h, hg]
  · intro gs h hg
    unfold toolPhase toolSelect
    simp [keyIn, indexJ, h, hg, truthy]

/-- Witness for C7 at concrete inputs (result present, tools empty). -/
theorem toolphase_no_tools_witness :
    toolPhase (MCPSSEClient.init "b" "e")
        (.obj [("result", .obj [("tools", .arr [])])])
        (fun _ => .netError) 2 =
      .ok [] :=
  (toolphase_no_tools (MCPSSEClient.init "b" "e") (fun _ => .netError) 2
    [("result", .obj [("tools", .arr [])])]).2.2
    [("tools", .arr [])] rfl rfl

/-! ## Claim C9 -/

/-- A network-failing POST always yields `None`. -/
theorem send_result_netError (c : MCPSSEClient) (m : String)
    (p : Option PyJson) (rid : Int) :
    (send_mcp_request c m p rid .netError).1 = none := by
  unfold send_mcp_request
  split
  · rfl
  · split
    · rfl
    · rfl

/-- A POST answered with a JSON body returns either `None` (no message URL,
or a raising status) or exactly the parsed body. -/
theorem send_result_jsonBody (c : MCPSSEClient) (m : String)
    (p : Option PyJson) (rid : Int) (status : Nat) (j : PyJson) :
    (send_mcp_request c m p rid (.response status (.jsonBody j))).1 = none ∨
    (send_mcp_request c m p rid (.response status (.jsonBody j))).1 =
      some j := by
  unfold send_mcp_request
  split
  · exact Or.inl rfl
  · split
    · exact Or.inl rfl
    · dsimp only
      split
      · exact Or.inl rfl
      · exact Or.inr rfl

/-- After a successful handshake, `main` reports the initialize and
tools/list steps by the truthiness of their results. -/
theorem mainRun_reported (uj : String → String → String) (g : GetOutcome)
    (env : Nat → PostOutcome) (c1 : MCPSSEClient)
    (hc : connect_sse uj (MCPSSEClient.init BASE_URL ENDPOINT_ID) g =
      (true, c1)) :
    (mainRun uj g env).initReported =
      resultTruthy (test_initialize_step c1 (env 0)).1 ∧
    (mainRun uj g env).toolsReported =
      resultTruthy
        (test_list_tools (test_initialize_step c1 (env 0)).2.1 (env 1)).1 := by
  unfold mainRun
  dsimp only
  rw [hc]
  dsimp only
  constructor
  · split
    · split
      · split <;> rfl
      · rfl
    · rfl
  · split
    case isTrue h =>
      rw [h]
      split
      · split <;> rfl
      · rfl
    case isFalse h =>
      simp only [Bool.not_eq_true] at h
      rw [h]

/-- C9: step success reporting in `main` tests truthiness, not presence: a
2xx response whose body parses to `{}` makes `send_mcp_request` return that
object, yet the initialize and tools/list steps are reported failed exactly
as when no result is returned (e.g. a network error). -/
theorem empty_object_reported_failed (uj : String → String → String)
    (g : GetOutcome) (env₁ env₂ : Nat → PostOutcome) (c : MCPSSEClient)
    (url m : String) (p : Option PyJson) (rid : Int)
    (hg : (connect_sse uj (MCPSSEClient.init BASE_URL ENDPOINT_ID) g).1 =
      true)
    (h1 : env₁ 0 = .response 200 (.jsonBody (.obj [])))
    (h2 : env₁ 1 = .response 200 (.jsonBody (.obj [])))
    (h3 : env₂ 0 = .netError)
    (hc : c.message_url = some url) (hu : url ≠ "") :
    ((send_mcp_request c m p rid (.response 200 (.jsonBody (.obj [])))).1 =
      some (.obj [])) ∧
    (mainRun uj g env₁).initReported = false ∧
    (mainRun uj g env₁).toolsReported = false ∧
    (mainRun uj g env₂).initReported = false := by
  obtain ⟨c1, hcs⟩ :
      ∃ c1, connect_sse uj (MCPSSEClient.init BASE_URL ENDPOINT_ID) g =
        (true, c1) := by
    rcases connect_sse_shape uj (MCPSSEClient.init BASE_URL ENDPOINT_ID) g
      with h | ⟨s, m', h⟩
    · rw [h] at hg
      exact absurd hg (by simp)
    · exact ⟨_, h⟩
  have hTruthyEmpty : ∀ (c' : MCPSSEClient) (m' : String)
      (p' : Option PyJson) (rid' : Int),
      resultTruthy
        (send_mcp_request c' m' p' rid'
          (.response 200 (.jsonBody (.obj [])))).1 = false := by
    intro c' m' p' rid'
    rcases send_result_jsonBody c' m' p' rid' 200 (.obj []) with h | h <;>
      rw [h] <;> rfl
  refine ⟨?_, ?_, ?_, ?_⟩
  · unfold send_mcp_request
    rw [hc]
    dsimp only
    rw [if_neg hu]
    rfl
  · rw [(mainRun_reported uj g env₁ c1 hcs).1, h1]
    exact hTruthyEmpty ..
  · rw [(mainRun_reported uj g env₁ c1 hcs).2, h2]
    exact hTruthyEmpty ..
  · rw [(mainRun_reported uj g env₂ c1 hcs).1, h3]
    unfold test_initialize_step
    rw [send_result_netError]
    rfl

/-- Witness for C9 at concrete inputs. -/
theorem empty_object_reported_failed_witness :
    (mainRun (fun _ r => r)
        (.response 200
          [⟨"endpoint", .ok (.obj [("uri", .str "/m?session_id=s")])⟩])
        (fun _ => .response 200 (.jsonBody (.obj [])))).initReported =
      false := by
  have h := empty_object_reported_failed (fun _ r => r)
    (.response 200
      [⟨"endpoint", .ok (.obj [("uri", .str "/m?session_id=s")])⟩])
    (fun _ => .response 200 (.jsonBody (.obj [])))
    (fun _ => .netError)
    ⟨"b", "e", "s", some "sid", some "http://u/m"⟩ "http://u/m" "m" none 1
    (by decide) rfl rfl rfl rfl (by decide)
  exact h.2.1

/-! ## Claim C1 -/

/-- A descriptor matched by a scan has a string name containing the sought
substring. -/
theorem match_name_parts {t : PyJson} {sub : String}
    (h : toolMatchName t sub = true) :
    ∃ s, nameOf t = some s ∧ toolGetName t = .ok (.str s) ∧
      containsSub s sub = true := by
  cases t with
  | obj fs =>
    cases hg : objGet fs "name" with
    | none => simp [toolMatchName, hg] at h
    | some v =>
      cases v with
      | str s =>
        simp only [toolMatchName, hg] at h
        exact ⟨s, by simp [nameOf, hg], by simp [toolGetName, hg], h⟩
      | null => simp [toolMatchName, hg] at h
      | bool b => simp [toolMatchName, hg] at h
      | num n => simp [toolMatchName, hg] at h
      | arr xs => simp [toolMatchName, hg] at h
      | obj gs => simp [toolMatchName, hg] at h
  | null => exact Bool.noConfusion h
  | bool b => exact Bool.noConfusion h
  | num n => exact Bool.noConfusion h
  | str s => exact Bool.noConfusion h
  | arr xs => exact Bool.noConfusion h

/-- On well-formed descriptors, a scan loop returns the first tool whose
string name contains the (nonempty) substring, in list order. -/
theorem scanFirst_wf (sub : String) (hsub : containsSub "" sub = false)
    (tools : List PyJson) (hw : ∀ t ∈ tools, wfTool t = true) :
    scanFirst tools sub = .ok (tools.find? fun t => toolMatchName t sub) := by
  induction tools with
  | nil => rfl
  | cons t rest ih =>
    have hwt := hw t (List.mem_cons_self t rest)
    have hrest := ih fun t' ht' => hw t' (List.mem_cons_of_mem _ ht')
    cases t with
    | obj fs =>
      cases hg : objGet fs "name" with
      | none =>
        have hm : toolMatchName (.obj fs) sub = false := by
          simp [toolMatchName, hg]
        unfold scanFirst
        rw [List.find?_cons_of_neg _ (by simp [hm])]
        simp [toolNameDefault, keyIn, hg, hsub, hrest]
      | some v =>
        cases v with
        | str s =>
          unfold scanFirst
          cases hb : containsSub s sub with
          | true =>
            have hm : toolMatchName (.obj fs) sub = true := by
              simp [toolMatchName, hg, hb]
            rw [List.find?_cons_of_pos _ (by simp [hm])]
            simp [toolNameDefault, keyIn, hg, hb]
          | false =>
            have hm : toolMatchName (.obj fs) sub = false := by
              simp [toolMatchName, hg, hb]
            rw [List.find?_cons_of_neg _ (by simp [hm])]
            simp [toolNameDefault, keyIn, hg, hb, hrest]
        | null => simp [wfTool, hg] at hwt
        | bool b => simp [wfTool, hg] at hwt
        | num n => simp [wfTool, hg] at hwt
        | arr xs => simp [wfTool, hg] at hwt
        | obj gs => simp [wfTool, hg] at hwt
    | null => exact Bool.noConfusion hwt
    | bool b => exact Bool.noConfusion hwt
    | num n => exact Bool.noConfusion hwt
    | str s => exact Bool.noConfusion hwt
    | arr xs => exact Bool.noConfusion hwt

/-- Helper: on a nonempty well-formed tools list the selection phase issues
exactly the requests described by `expectedToolCalls`. -/
theorem toolPhase_wf_calls (c : MCPSSEClient) (url : String)
    (env : Nat → PostOutcome) (k : Nat) (tools : List PyJson)
    (hm : c.message_url = some url) (hu : url ≠ "")
    (hw : ∀ t ∈ tools, wfTool t = true) (hne : tools ≠ []) :
    toolPhase c (.obj [("result", .obj [("tools", .arr tools)])]) env k =
      .ok (expectedToolCalls url tools) := by
  have hprobe :
      toolPhase c (.obj [("result", .obj [("tools", .arr tools)])]) env k =
        toolSelect c (.arr tools) env k := rfl
  rw [hprobe]
  cases tools with
  | nil => exact absurd rfl hne
  | cons t0 rest =>
    have hfind := scanFirst_wf "findByAgentId" rfl (t0 :: rest) hw
    have hsave := scanFirst_wf "save" rfl (t0 :: rest) hw
    unfold toolSelect
    rw [if_pos (show truthy (.arr (t0 :: rest)) = true from rfl)]
    dsimp only [iterTools]
    rw [hfind]
    dsimp only
    cases hf : List.find? (fun t => toolMatchName t "findByAgentId")
        (t0 :: rest) with
    | none =>
      rw [hsave]
      dsimp only
      cases hs : List.find? (fun t => toolMatchName t "save")
          (t0 :: rest) with
      | some t2 =>
        have hpt2 : toolMatchName t2 "save" = true :=
          List.find?_some (p := fun t => toolMatchName t "save") hs
        obtain ⟨s2, hnm2, hgn2, hcs2⟩ := match_name_parts hpt2
        dsimp only
        rw [hgn2]
        dsimp only
        unfold test_call_tool
        rw [send_reqs _ _ _ _ hm hu]
        unfold expectedToolCalls
        rw [hf, hs]
        dsimp only
        rw [hnm2]
        rfl
      | none =>
        have hw0 := hw t0 (List.mem_cons_self t0 rest)
        cases t0 with
        | obj fs0 =>
          cases hg0 : objGet fs0 "name" with
          | none =>
            rw [show toolGetName (.obj fs0) =
              .ok ((objGet fs0 "name").getD .null) from rfl, hg0]
            dsimp only
            simp only [Option.getD_none]
            rw [if_neg (show ¬truthy PyJson.null = true by simp [truthy])]
            unfold expectedToolCalls
            rw [hf, hs]
            simp [nameOf, hg0, callEnvelope, mcpRequestBody, pyOr, truthy]
          | some v =>
            cases v with
            | str s =>
              rw [show toolGetName (.obj fs0) =
                .ok ((objGet fs0 "name").getD .null) from rfl, hg0]
              dsimp only
              simp only [Option.getD_some]
              by_cases hse : s = ""
              · subst hse
                rw [if_neg (show ¬truthy (PyJson.str "") = true by
                  simp [truthy])]
                unfold expectedToolCalls
                rw [hf, hs]
                simp [nameOf, hg0, callEnvelope, mcpRequestBody, pyOr, truthy]
              · rw [if_pos (show truthy (PyJson.str s) = true by
                  simp [truthy, hse])]
                try dsimp only
                unfold test_call_tool
                rw [send_reqs _ _ _ _ hm hu]
                unfold expectedToolCalls
                rw [hf, hs]
                simp only [nameOf, hg0]
                rw [if_neg hse]
                rfl
            | null => simp [wfTool, hg0] at hw0
            | bool b => simp [wfTool, hg0] at hw0
            | num n => simp [wfTool, hg0] at hw0
            | arr xs => simp [wfTool, hg0] at hw0
            | obj gs => simp [wfTool, hg0] at hw0
        | null => exact Bool.noConfusion hw0
        | bool b => exact Bool.noConfusion hw0
        | num n => exact Bool.noConfusion hw0
        | str s => exact Bool.noConfusion hw0
        | arr xs => exact Bool.noConfusion hw0
    | some t =>
      have hpt : toolMatchName t "findByAgentId" = true :=
        List.find?_some (p := fun t => toolMatchName t "findByAgentId") hf
      obtain ⟨s, hnm, hgn, hcs⟩ := match_name_parts hpt
      try dsimp only
      rw [hgn]
      dsimp only
      unfold test_call_tool_with_agent_id
      rw [send_reqs _ _ _ _ hm hu]
      rw [hsave]
      cases hs : List.find? (fun t => toolMatchName t "save")
          (t0 :: rest) with
      | some t2 =>
        have hpt2 : toolMatchName t2 "save" = true :=
          List.find?_some (p := fun t => toolMatchName t "save") hs
        obtain ⟨s2, hnm2, hgn2, hcs2⟩ := match_name_parts hpt2
        dsimp only
        rw [hgn2]
        dsimp only
        unfold test_call_tool
        rw [send_reqs _ _ _ _ hm hu]
        unfold expectedToolCalls
        rw [hf, hs]
        dsimp only
        rw [hnm, hnm2]
        rfl
      | none =>
        have hw0 := hw t0 (List.mem_cons_self t0 rest)
        cases t0 with
        | obj fs0 =>
          cases hg0 : objGet fs0 "name" with
          | none =>
            rw [show toolGetName (.obj fs0) =
              .ok ((objGet fs0 "name").getD .null) from rfl, hg0]
            dsimp only
            simp only [Option.getD_none]
            rw [if_neg (show ¬truthy PyJson.null = true by simp [truthy])]
            unfold expectedToolCalls
            rw [hf, hs]
            dsimp only
            rw [hnm]
            simp [nameOf, hg0, callEnvelope, mcpRequestBody, pyOr, truthy]
          | some v =>
            cases v with
            | str s0 =>
              rw [show toolGetName (.obj fs0) =
                .ok ((objGet fs0 "name").getD .null) from rfl, hg0]
              dsimp only
              simp only [Option.getD_some]
              by_cases hse : s0 = ""
              · subst hse
                rw [if_neg (show ¬truthy (PyJson.str "") = true by
                  simp [truthy])]
                unfold expectedToolCalls
                rw [hf, hs]
                dsimp only
                rw [hnm]
                simp [nameOf, hg0, callEnvelope, mcpRequestBody, pyOr, truthy]
              · rw [if_pos (show truthy (PyJson.str s0) = true by
                  simp [truthy, hse])]
                try dsimp only
                unfold test_call_tool
                rw [send_reqs _ _ _ _ hm hu]
                unfold expectedToolCalls
                rw [hf, hs]
                dsimp only
                rw [hnm]
                simp only [nameOf, hg0]
                rw [if_neg hse]
                rfl
            | null => simp [wfTool, hg0] at hw0
            | bool b => simp [wfTool, hg0] at hw0
            | num n => simp [wfTool, hg0] at hw0
            | arr xs => simp [wfTool, hg0] at hw0
            | obj gs => simp [wfTool, hg0] at hw0
        | null => exact Bool.noConfusion hw0
        | bool b => exact Bool.noConfusion hw0
        | num n => exact Bool.noConfusion hw0
        | str s0 => exact Bool.noConfusion hw0
        | arr xs => exact Bool.noConfusion hw0

/-- C1 (amended): on a nonempty well-formed tools list the scripted sequence
runs two *independent* scans, not an exclusive chain: it calls the first
tool whose name contains `findByAgentId` (if any) with
`{agentId: <test UUID>}`, and additionally calls the first tool whose name
contains `save` (if any) with the hard-coded body object; only when no name
contains `save` does it fall back to the first tool, called with no
arguments (and only if that tool's name is a nonempty string).  Up to two
`tools/call` requests may therefore be issued. -/
theorem toolPhase_two_scan_selection (c : MCPSSEClient) (url : String)
    (env : Nat → PostOutcome) (k : Nat) (tools : List PyJson)
    (hm : c.message_url = some url) (hu : url ≠ "")
    (hw : ∀ t ∈ tools, wfTool t = true) (hne : tools ≠ []) :
    toolPhase c (.obj [("result", .obj [("tools", .arr tools)])]) env k =
      .ok (expectedToolCalls url tools) :=
  toolPhase_wf_calls c url env k tools hm hu hw hne

/-- Witness for C1 (amended) at the claim's own tool list: both the
`findByAgentId` match and the `save` match are called. -/
theorem toolPhase_two_scan_selection_witness :
    toolPhase ⟨"b", "e", "s", some "sid", some "http://u/m"⟩
        (.obj [("result", .obj [("tools", .arr
          [.obj [("name", .str "a")], .obj [("name", .str "findByAgentIdTool")],
           .obj [("name", .str "saveThing")]])])])
        (fun _ => .netError) 2 =
      .ok (expectedToolCalls "http://u/m"
        [.obj [("name", .str "a")], .obj [("name", .str "findByAgentIdTool")],
         .obj [("name", .str "saveThing")]]) :=
  toolPhase_two_scan_selection ⟨"b", "e", "s", some "sid", some "http://u/m"⟩
    "http://u/m" (fun _ => .netError) 2
    [.obj [("name", .str "a")], .obj [("name", .str "findByAgentIdTool")],
     .obj [("name", .str "saveThing")]]
    rfl (by decide) (by decide) (by simp)

/-- Counterexample to C1 as stated: on the tool list
`[{name:"a"}, {name:"findByAgentIdTool"}, {name:"saveThing"}]` the scripted
sequence issues **two** `tools/call` requests — `findByAgentIdTool` with the
agent id and then also `saveThing` with the body object — because the find
scan and the save scan are independent `if`s, not an exclusive chain. -/
theorem mainRun_calls_find_and_save_counterexample :
    (mainRun (fun _ r => r)
        (.response 200
          [⟨"endpoint", .ok (.obj [("uri",
            .str "/messages?session_id=test-session")])⟩])
        (fun _ => .response 200 (.jsonBody (.obj [("result",
          .obj [("tools", .arr
            [.obj [("name", .str "a")],
             .obj [("name", .str "findByAgentIdTool")],
             .obj [("name", .str "saveThing")]])])])))).requests =
      [⟨"/messages?session_id=test-session",
        mcpRequestBody "initialize" (some initializeParams) 1⟩,
       ⟨"/messages?session_id=test-session",
        mcpRequestBody "tools/list" none 1⟩,
       callEnvelope "/messages?session_id=test-session" "findByAgentIdTool"
         (.obj [("agentId", .str testAgentId)]),
       callEnvelope "/messages?session_id=test-session" "saveThing"
         (.obj [("body", testData)])] := rfl

/-! ## Claim C2 -/

/-- Python's `split`: when the first occurrence of the separator sits right
after `u` and `v` carries no further occurrence, splitting `u ++ sep ++ v`
yields exactly `[u, v]`. -/
theorem pySplitAux_clean (sep u v : List Char) (f : Nat)
    (h1 : findOcc sep (u ++ sep ++ v) = some u.length)
    (h2 : findOcc sep v = none) :
    pySplitAux sep (f + 2) (u ++ sep ++ v) = [u, v] := by
  show pySplitAux sep (f + 1 + 1) (u ++ sep ++ v) = [u, v]
  unfold pySplitAux
  rw [h1]
  dsimp only
  rw [List.drop_left' (by simp : (u ++ sep).length = u.length + sep.length)]
  rw [List.append_assoc, List.take_left]
  unfold pySplitAux
  rw [h2]

/-- C2 (amended): for an endpoint event whose `uri` is `a ++ "session_id="
++ b`, where the shown occurrence of `session_id=` is the first one in the
uri and `b` contains no further occurrence, the handshake succeeds and
stores exactly `b` — i.e. everything after the first `session_id=`,
including any further query parameters — as the session identifier, and
stores `urljoin(base, uri)` (stdlib relative-URL resolution) as the message
URL. -/
theorem connect_sse_session_extraction (urljoin : String → String → String)
    (base endp a b : String) (rest : List SSEEvent) (status : Nat)
    (h1 : firstOcc (a ++ "session_id=" ++ b) "session_id=" = some a.length)
    (h2 : containsSub b "session_id=" = false)
    (hst : ¬(400 ≤ status ∧ status < 600)) :
    connect_sse urljoin (MCPSSEClient.init base endp)
      (.response status
        (⟨"endpoint",
          .ok (.obj [("uri", .str (a ++ "session_id=" ++ b))])⟩ :: rest)) =
      (true,
        { MCPSSEClient.init base endp with
          session_id := some b
          message_url := some (urljoin base (a ++ "session_id=" ++ b)) }) := by
  have hne : ((a ++ "session_id=" ++ b) != "") = true := by
    rw [bne_iff_ne]
    intro hcon
    rw [hcon] at h1
    exact Option.noConfusion h1
  have hcontains :
      containsSub (a ++ "session_id=" ++ b) "session_id=" = true := by
    rw [show containsSub (a ++ "session_id=" ++ b) "session_id=" =
      (firstOcc (a ++ "session_id=" ++ b) "session_id=").isSome from rfl, h1]
    rfl
  have h2' : findOcc ("session_id=" : String).data b.data = none := by
    cases hk : findOcc ("session_id=" : String).data b.data with
    | none => rfl
    | some i =>
      exfalso
      rw [show containsSub b "session_id=" =
        (findOcc ("session_id=" : String).data b.data).isSome from rfl,
        hk] at h2
      exact Bool.noConfusion h2
  have hlen : (a ++ "session_id=" ++ b).data.length + 1 =
      a.data.length + b.data.length + 10 + 2 := by
    rw [show (a ++ "session_id=" ++ b).data =
      a.data ++ ("session_id=" : String).data ++ b.data from rfl]
    simp only [List.length_append]
    rw [show ("session_id=" : String).data.length = 11 from rfl]
    omega
  have hsplit : pySplit (a ++ "session_id=" ++ b) "session_id=" = [a, b] := by
    unfold pySplit
    rw [hlen]
    rw [show (a ++ "session_id=" ++ b).data =
      a.data ++ ("session_id=" : String).data ++ b.data from rfl]
    rw [pySplitAux_clean ("session_id=" : String).data a.data b.data
      (a.data.length + b.data.length + 10) h1 h2']
    rfl
  have hstep : connect_sse urljoin (MCPSSEClient.init base endp)
      (.response status
        (⟨"endpoint",
          .ok (.obj [("uri", .str (a ++ "session_id=" ++ b))])⟩ :: rest)) =
      (if raisesForStatus status = true then
        (false, MCPSSEClient.init base endp)
       else if ((a ++ "session_id=" ++ b) != "") = true then
        (if containsSub (a ++ "session_id=" ++ b) "session_id=" = true then
          (true,
            { MCPSSEClient.init base endp with
              session_id := some ((pySplit (a ++ "session_id=" ++ b)
                "session_id=").getD 1 "")
              message_url :=
                some (urljoin (MCPSSEClient.init base endp).base_url
                  (a ++ "session_id=" ++ b)) })
         else (false, MCPSSEClient.init base endp))
       else (false, MCPSSEClient.init base endp)) := rfl
  rw [hstep,
    if_neg (show ¬raisesForStatus status = true by
      simp only [raisesForStatus, decide_eq_true_eq]; exact hst),
    if_pos hne, if_pos hcontains, hsplit]
  rfl

/-- Witness for C2 (amended) at a concrete uri with trailing parameters. -/
theorem connect_sse_session_extraction_witness :
    connect_sse (fun x r => x ++ r) (MCPSSEClient.init "http://h" "e")
      (.response 200
        [⟨"endpoint",
          .ok (.obj [("uri", .str "/msg?session_id=abc&x=1")])⟩]) =
      (true,
        { MCPSSEClient.init "http://h" "e" with
          session_id := some "abc&x=1"
          message_url := some ("http://h" ++ "/msg?session_id=abc&x=1") }) :=
  connect_sse_session_extraction (fun x r => x ++ r) "http://h" "e"
    "/msg?" "abc&x=1" [] 200 rfl rfl (by omega)

/-- Counterexample to C2 as stated: for the uri
`/msg?session_id=abc&foo=1`, which contains `session_id=abc` followed by a
further query parameter, the handshake does **not** store `abc`; it stores
everything after `session_id=`, namely `abc&foo=1`. -/
theorem session_id_keeps_trailing_params_counterexample :
    containsSub "/msg?session_id=abc&foo=1" "session_id=abc" = true ∧
    (connect_sse (fun _ r => r) (MCPSSEClient.init "http://h" "e")
        (.response 200
          [⟨"endpoint",
            .ok (.obj [("uri",
              .str "/msg?session_id=abc&foo=1")])⟩])).2.session_id =
      some "abc&foo=1" ∧
    (connect_sse (fun _ r => r) (MCPSSEClient.init "http://h" "e")
        (.response 200
          [⟨"endpoint",
            .ok (.obj [("uri",
              .str "/msg?session_id=abc&foo=1")])⟩])).2.session_id ≠
      some "abc" := by
  refine ⟨rfl, rfl, ?_⟩
  intro hcon
  rw [show (connect_sse (fun _ r => r) (MCPSSEClient.init "http://h" "e")
      (.response 200
        [⟨"endpoint",
          .ok (.obj [("uri",
            .str "/msg?session_id=abc&foo=1")])⟩])).2.session_id =
    some "abc&foo=1" from rfl] at hcon
  have : "abc&foo=1" = "abc" := Option.some.inj hcon
  exact absurd (congrArg String.length this) (by decide)

/-! ## Claim C6 -/

/-- C6 (amended): the handshake examines only the first received SSE event
(appending further events never changes the result); it returns `true` —
and then both optional fields are populated — exactly when the GET yields a
non-raising status (outside 4xx/5xx) and the first event is of type
`endpoint` with a JSON-object payload whose `uri` is a nonempty string
containing `session_id=`; in every other case — connection failure, a
4xx/5xx status, no event, wrong event type, undecodable payload, `uri`
absent, non-string, empty, or lacking `session_id=` — it returns `false`
without raising and the session identifier and message URL remain `None`. -/
theorem connect_sse_first_event_characterization
    (urljoin : String → String → String) (base endp : String)
    (g : GetOutcome) :
    ((connect_sse urljoin (MCPSSEClient.init base endp) g).1 = true ↔
      ∃ status e rest fs uri,
        g = .response status (e :: rest) ∧ ¬(400 ≤ status ∧ status < 600) ∧
        e.event = "endpoint" ∧ e.data = .ok (.obj fs) ∧
        objGet fs "uri" = some (.str uri) ∧ uri ≠ "" ∧
        containsSub uri "session_id=" = true) ∧
    ((connect_sse urljoin (MCPSSEClient.init base endp) g).1 = false →
      (connect_sse urljoin (MCPSSEClient.init base endp) g).2 =
        MCPSSEClient.init base endp ∧
      (connect_sse urljoin
        (MCPSSEClient.init base endp) g).2.session_id = none ∧
      (connect_sse urljoin
        (MCPSSEClient.init base endp) g).2.message_url = none) ∧
    ((connect_sse urljoin (MCPSSEClient.init base endp) g).1 = true →
      (connect_sse urljoin
        (MCPSSEClient.init base endp) g).2.session_id.isSome = true ∧
      (connect_sse urljoin
        (MCPSSEClient.init base endp) g).2.message_url.isSome = true) ∧
    (∀ status e rest,
      connect_sse urljoin (MCPSSEClient.init base endp)
        (.response status (e :: rest)) =
      connect_sse urljoin (MCPSSEClient.init base endp)
        (.response status [e])) := by
  refine ⟨⟨?_, ?_⟩, ?_, ?_, ?_⟩
  · -- forward direction of the iff
    intro h
    cases g with
    | connError => exact Bool.noConfusion h
    | response status events =>
      unfold connect_sse at h
      dsimp only at h
      by_cases hrs : raisesForStatus status = true
      · rw [if_pos hrs] at h
        exact Bool.noConfusion h
      · rw [if_neg hrs] at h
        have hst : ¬(400 ≤ status ∧ status < 600) := by
          simp only [raisesForStatus, decide_eq_true_eq] at hrs
          exact hrs
        cases events with
        | nil => exact Bool.noConfusion h
        | cons e rest =>
          obtain ⟨ev, dt⟩ := e
          dsimp only at h
          by_cases hev : ev = "endpoint"
          · subst hev
            rw [if_pos rfl] at h
            cases dt with
            | err => exact Bool.noConfusion h
            | ok j =>
              cases j with
              | obj fs =>
                try dsimp only at h
                cases hgu : objGet fs "uri" with
                | none =>
                  rw [hgu] at h
                  exact Bool.noConfusion h
                | some v =>
                  rw [hgu] at h
                  try dsimp only at h
                  by_cases htv : truthy v = true
                  · rw [if_pos htv] at h
                    cases v with
                    | str uri =>
                      try dsimp only at h
                      by_cases hcs :
                          containsSub uri "session_id=" = true
                      · have hne : uri ≠ "" := by
                          simpa [truthy, bne_iff_ne] using htv
                        exact ⟨status, ⟨"endpoint", .ok (.obj fs)⟩, rest,
                          fs, uri, rfl, hst, rfl, rfl, hgu, hne, hcs⟩
                      · rw [if_neg hcs] at h
                        exact Bool.noConfusion h
                    | null => exact Bool.noConfusion h
                    | bool b => exact Bool.noConfusion h
                    | num n => exact Bool.noConfusion h
                    | arr xs => exact Bool.noConfusion h
                    | obj gs => exact Bool.noConfusion h
                  · rw [if_neg htv] at h
                    exact Bool.noConfusion h
              | null => exact Bool.noConfusion h
              | bool b => exact Bool.noConfusion h
              | num n => exact Bool.noConfusion h
              | str s => exact Bool.noConfusion h
              | arr xs => exact Bool.noConfusion h
          · rw [if_neg hev] at h
            exact Bool.noConfusion h
  · -- backward direction of the iff
    rintro ⟨status, e, rest, fs, uri, rfl, hst, hev, hdt, hgu, hne, hcs⟩
    obtain ⟨ev, dt⟩ := e
    dsimp only at hev hdt
    subst hev
    subst hdt
    unfold connect_sse
    dsimp only
    rw [if_neg (show ¬raisesForStatus status = true by
      simp only [raisesForStatus, decide_eq_true_eq]; exact hst)]
    try dsimp only
    try rw [if_pos (rfl : ("endpoint" : String) = "endpoint")]
    rw [hgu]
    try dsimp only
    rw [if_pos (show truthy (.str uri) = true by
      simp [truthy, bne_iff_ne, hne])]
    try dsimp only
    rw [if_pos hcs]
  · -- failure leaves the client (and its two optional fields) untouched
    intro hf
    rcases connect_sse_shape urljoin (MCPSSEClient.init base endp) g
      with hsh | ⟨s, m', hsh⟩
    · rw [hsh]
      exact ⟨rfl, rfl, rfl⟩
    · rw [hsh] at hf
      exact absurd hf (by simp)
  · -- success populates both optional fields
    intro ht
    rcases connect_sse_shape urljoin (MCPSSEClient.init base endp) g
      with hsh | ⟨s, m', hsh⟩
    · rw [hsh] at ht
      exact absurd ht (by simp)
    · rw [hsh]
      exact ⟨rfl, rfl⟩
  · -- only the first event matters
    intro status e rest
    rfl

/-- Witness for C6 (amended) at concrete inputs: a failed handshake leaves
the client untouched, and a second queued event never changes the result. -/
theorem connect_sse_first_event_characterization_witness :
    (connect_sse (fun _ r => r) (MCPSSEClient.init "http://h" "e")
        .connError).2 = MCPSSEClient.init "http://h" "e" ∧
    connect_sse (fun _ r => r) (MCPSSEClient.init "http://h" "e")
        (.response 200
          [⟨"endpoint", .ok (.obj [("uri", .str "/m?session_id=s")])⟩,
           ⟨"junk", .err⟩]) =
      connect_sse (fun _ r => r) (MCPSSEClient.init "http://h" "e")
        (.response 200
          [⟨"endpoint", .ok (.obj [("uri", .str "/m?session_id=s")])⟩]) :=
  ⟨((connect_sse_first_event_characterization (fun _ r => r) "http://h" "e"
      .connError).2.1 rfl).1,
   (connect_sse_first_event_characterization (fun _ r => r) "http://h" "e"
      .connError).2.2.2 200
     ⟨"endpoint", .ok (.obj [("uri", .str "/m?session_id=s")])⟩
     [⟨"junk", .err⟩]⟩

/-- Counterexample to C6 as stated: an HTTP 301 response — not a 2xx
status — carrying a valid endpoint event makes the handshake return
**true**, because `raise_for_status` only raises for 4xx/5xx. -/
theorem connect_sse_non2xx_true_counterexample :
    (connect_sse (fun _ r => r) (MCPSSEClient.init "http://h" "e")
        (.response 301
          [⟨"endpoint",
            .ok (.obj [("uri", .str "/m?session_id=s")])⟩])).1 = true ∧
    ¬(200 ≤ 301 ∧ 301 < 300) :=
  ⟨rfl, by omega⟩

/-! ## Claim C10 -/

/-- A descriptor without a string name matches no substring scan. -/
theorem toolMatchName_eq_false_of_nameOf_none {t : PyJson} (sub : String)
    (hn : nameOf t = none) : toolMatchName t sub = false := by
  cases t with
  | obj fs =>
    cases hg : objGet fs "name" with
    | none => simp [toolMatchName, hg]
    | some v =>
      cases v with
      | str s => simp [nameOf, hg] at hn
      | null => simp [toolMatchName, hg]
      | bool b => simp [toolMatchName, hg]
      | num n => simp [toolMatchName, hg]
      | arr xs => simp [toolMatchName, hg]
      | obj gs => simp [toolMatchName, hg]
  | null => rfl
  | bool b => rfl
  | num n => rfl
  | str s => rfl
  | arr xs => rfl

/-- Counterexample to C10 as stated: on the mixed list
`[{description:"d"}, {name:"findByAgentIdTool"}]` the fallback first tool
has no name, yet one `tools/call` **is** issued — by the find-scan, which
matched the second, named tool.  "No tools/call is issued at all" therefore
fails on mixed lists; only the fallback itself is suppressed. -/
theorem nameless_fallback_one_call_counterexample :
    nameOf (.obj [("description", .str "d")]) = none ∧
    toolPhase ⟨"b", "e", "s", some "sid", some "http://u/m"⟩
        (.obj [("result", .obj [("tools", .arr
          [.obj [("description", .str "d")],
           .obj [("name", .str "findByAgentIdTool")]])])])
        (fun _ => .netError) 2 =
      .ok [callEnvelope "http://u/m" "findByAgentIdTool"
        (.obj [("agentId", .str testAgentId)])] :=
  ⟨rfl, rfl⟩

/-- C10 (amended): tool descriptors lacking a `name` field never raise
anywhere in the selection logic, also in lists mixing nameless and named
descriptors: the phase always completes without an uncaught exception; a
nameless descriptor matches neither the `findByAgentId` nor the `save`
scan; and when the fallback is reached (no `save` match anywhere) with a
nameless first tool, the fallback issues no `tools/call` — the only
requests are those of a find-scan match, so none at all only when the
find-scan also found nothing. -/
theorem nameless_tools_mixed_safe (c : MCPSSEClient) (url : String)
    (env : Nat → PostOutcome) (k : Nat) (tools : List PyJson)
    (hm : c.message_url = some url) (hu : url ≠ "")
    (hw : ∀ t ∈ tools, wfTool t = true) (hne : tools ≠ []) :
    (∃ reqs,
      toolPhase c (.obj [("result", .obj [("tools", .arr tools)])]) env k =
        .ok reqs) ∧
    (∀ t ∈ tools, nameOf t = none →
      toolMatchName t "findByAgentId" = false ∧
      toolMatchName t "save" = false) ∧
    ((∀ x ∈ tools, toolMatchName x "save" = false) →
      ∀ fs0 tl, tools = .obj fs0 :: tl → objGet fs0 "name" = none →
        toolPhase c (.obj [("result", .obj [("tools", .arr tools)])]) env k =
          .ok (match tools.find?
              (fun t => toolMatchName t "findByAgentId") with
            | some t => [callEnvelope url ((nameOf t).getD "")
                (.obj [("agentId", .str testAgentId)])]
            | none => [])) := by
  refine ⟨⟨expectedToolCalls url tools,
    toolPhase_wf_calls c url env k tools hm hu hw hne⟩, ?_, ?_⟩
  · intro t _ hn
    exact ⟨toolMatchName_eq_false_of_nameOf_none "findByAgentId" hn,
      toolMatchName_eq_false_of_nameOf_none "save" hn⟩
  · intro hsv fs0 tl ht hg0
    subst ht
    rw [toolPhase_wf_calls c url env k _ hm hu hw hne]
    have hfs : List.find? (fun t => toolMatchName t "save")
        (PyJson.obj fs0 :: tl) = none := by
      rw [List.find?_eq_none]
      intro x hx
      simp [hsv x hx]
    unfold expectedToolCalls
    rw [hfs]
    dsimp only
    rw [show nameOf (.obj fs0) = none by simp [nameOf, hg0]]
    rw [List.append_nil]

/-- Witness for C10 (amended) on the mixed list: the phase completes with
exactly the find-scan's call, the nameless fallback adding nothing. -/
theorem nameless_tools_mixed_safe_witness :
    toolPhase ⟨"b", "e", "s", some "sid", some "http://u/m"⟩
        (.obj [("result", .obj [("tools", .arr
          [.obj [("description", .str "d")],
           .obj [("name", .str "findByAgentIdTool")]])])])
        (fun _ => .netError) 2 =
      .ok (match ([.obj [("description", .str "d")],
            .obj [("name", .str "findByAgentIdTool")]] : List PyJson).find?
            (fun t => toolMatchName t "findByAgentId") with
          | some t => [callEnvelope "http://u/m" ((nameOf t).getD "")
              (.obj [("agentId", .str testAgentId)])]
          | none => []) :=
  (nameless_tools_mixed_safe ⟨"b", "e", "s", some "sid", some "http://u/m"⟩
      "http://u/m" (fun _ => .netError) 2
      [.obj [("description", .str "d")],
       .obj [("name", .str "findByAgentIdTool")]]
      rfl (by decide) (by decide) (by simp)).2.2 (by decide)
    [("description", .str "d")] [.obj [("name", .str "findByAgentIdTool")]]
    rfl rfl

end MCPClient
